import Mathlib

/-!
Shallow embedding of the fichaje-app time-clock engine.

Durations and times of day are modelled in integer seconds; a datetime is an
integer count of seconds since the Unix epoch; a calendar date is a
(year, month, day) triple.  Nullable database columns become `Option`.
Floating-point haversine distances are abstracted as an integer-valued
distance oracle passed as a parameter (the claims' distances and radii are
whole units); everything downstream of the distance comparison is embedded
exactly.
-/

/-- Number of seconds in one day. -/
def segundosDia : Int := 86400

/-- A calendar date, as produced by Python `datetime.date`. -/
structure Fecha where
  year : Int
  month : Int
  day : Int
deriving DecidableEq, Repr

/-- Days since 1970-01-01 for a civil date (proleptic Gregorian calendar,
standard civil-from-days construction with floor division). -/
def Fecha.aDias (f : Fecha) : Int :=
  let y := if f.month ≤ 2 then f.year - 1 else f.year
  let era := y / 400
  let yoe := y - era * 400
  let mp := (f.month + 9) % 12
  let doy := (153 * mp + 2) / 5 + f.day - 1
  let doe := yoe * 365 + yoe / 4 - yoe / 100 + doy
  era * 146097 + doe - 719468

/-- Civil date from days since 1970-01-01 (inverse of `Fecha.aDias`). -/
def fechaDeDias (z0 : Int) : Fecha :=
  let z := z0 + 719468
  let era := z / 146097
  let doe := z - era * 146097
  let yoe := (doe - doe / 1460 + doe / 36524 - doe / 146096) / 365
  let y := yoe + era * 400
  let doy := doe - (365 * yoe + yoe / 4 - yoe / 100)
  let mp := (5 * doy + 2) / 153
  let d := doy - (153 * mp + 2) / 5 + 1
  let m := mp + (if mp < 10 then 3 else -9)
  ⟨if m ≤ 2 then y + 1 else y, m, d⟩

/-- Python `date.weekday()`: 0 = Monday … 6 = Sunday (1970-01-01 was a Thursday). -/
def Fecha.weekday (f : Fecha) : Int :=
  (f.aDias + 3) % 7

/-- The Thursday of the ISO week containing `f`, as a day count. -/
def Fecha.juevesISO (f : Fecha) : Int :=
  f.aDias - f.weekday + 3

/-- Python `date.isocalendar().year`: the year of the Thursday of `f`'s week. -/
def Fecha.isoYear (f : Fecha) : Int :=
  (fechaDeDias f.juevesISO).year

/-- Python `date.isocalendar().week`: ordinal of `f`'s Thursday within its ISO year. -/
def Fecha.isoWeek (f : Fecha) : Int :=
  let th := f.juevesISO
  let y := (fechaDeDias th).year
  (th - (Fecha.aDias ⟨y, 1, 1⟩)) / 7 + 1

/-- A datetime (seconds since epoch) split into its date. -/
def fechaDe (t : Int) : Fecha :=
  fechaDeDias (t / segundosDia)

/-- Python `datetime.combine(fecha, t)` as seconds since epoch, for a
time-of-day `t` in seconds. -/
def combinar (f : Fecha) (t : Int) : Int :=
  f.aDias * segundosDia + t

/-! ## Data model (app_core/models.py plus the break columns added by db_setup.py) -/

/-- One per-weekday row of a schedule (`ScheduleDay`); `start_time`/`end_time`
are non-nullable columns, the break fields are nullable. -/
structure ScheduleDay where
  day_of_week : Int
  start_time : Int
  end_time : Int
  break_type : String
  break_start : Option Int
  break_end : Option Int
  break_minutes : Option Int
  break_optional : Bool
  break_paid : Bool
deriving DecidableEq, Repr

/-- A `Schedule`: uniform fields are nullable (`use_per_day` selects mode). -/
structure Schedule where
  start_time : Option Int
  end_time : Option Int
  break_type : String
  break_start : Option Int
  break_end : Option Int
  break_minutes : Option Int
  use_per_day : Bool
  days : List ScheduleDay
  break_optional : Bool
  break_paid : Bool
deriving DecidableEq, Repr

/-- The slice of `User` the engine reads: its id and assigned schedules
(in association order). -/
structure Usuario where
  id : Int
  schedules : List Schedule
deriving DecidableEq, Repr

/-- A `Location` row; `radius_meters` is a non-nullable float column. -/
structure Ubicacion where
  name : String
  latitude : Int
  longitude : Int
  radius_meters : Int
deriving DecidableEq, Repr

/-! ## logic.py : schedule queries -/

/-- Python `obtener_horario_aplicable`: first assigned schedule, or none. -/
def obtenerHorarioAplicable (usuario : Usuario) : Option Schedule :=
  usuario.schedules.head?

/-- Python `calcular_jornada_teorica`: theoretical daily work duration for a date.
Python time-of-day truthiness: a `datetime.time` is always truthy, so
`if not schedule.start_time` tests only for `None`; `if dia.break_minutes`
is false for both `None` and `0`. -/
def calcularJornadaTeorica (schedule : Schedule) (dt : Fecha) : Int :=
  if schedule.use_per_day then
    match schedule.days.find? (fun d => d.day_of_week = dt.weekday) with
    | none => 0
    | some dia =>
      let inicio := combinar dt dia.start_time
      let finBase := combinar dt dia.end_time
      let fin := if finBase ≤ inicio then finBase + segundosDia else finBase
      let duracion := fin - inicio
      let duracion :=
        if !dia.break_paid then
          if dia.break_type = "fixed" then
            match dia.break_start, dia.break_end with
            | some bs, some be =>
              let bInicio := combinar dt bs
              let bFinBase := combinar dt be
              let bFin := if bFinBase ≤ bInicio then bFinBase + segundosDia else bFinBase
              duracion - (bFin - bInicio)
            | _, _ => duracion
          else if dia.break_type = "flexible" then
            match dia.break_minutes with
            | some m => if m ≠ 0 then duracion - m * 60 else duracion
            | none => duracion
          else duracion
        else duracion
      if duracion < 0 then 0 else duracion
  else
    match schedule.start_time, schedule.end_time with
    | some st, some et =>
      let inicio := combinar dt st
      let finBase := combinar dt et
      let fin := if finBase ≤ inicio then finBase + segundosDia else finBase
      let duracion := fin - inicio
      let duracion :=
        if !schedule.break_paid then
          if schedule.break_type = "fixed" then
            match schedule.break_start, schedule.break_end with
            | some bs, some be =>
              let bInicio := combinar dt bs
              let bFinBase := combinar dt be
              let bFin := if bFinBase ≤ bInicio then bFinBase + segundosDia else bFinBase
              duracion - (bFin - bInicio)
            | _, _ => duracion
          else if schedule.break_type = "flexible" then
            match schedule.break_minutes with
            | some m => if m ≠ 0 then duracion - m * 60 else duracion
            | none => duracion
          else duracion
        else duracion
      if duracion < 0 then 0 else duracion
    | _, _ => 0

/-- Python `calcular_duracion_trabajada_intervalo`: raw interval duration; `None`
when either endpoint is missing; adds one day when the naive subtraction is
negative. -/
def calcularDuracionTrabajadaIntervalo (entradaMomento salidaMomento : Option Int) :
    Option Int :=
  match entradaMomento, salidaMomento with
  | some inicio, some fin =>
    let real := fin - inicio
    some (if real < 0 then real + segundosDia else real)
  | _, _ => none

/-! ## logic.py : per-interval reconciliation (calcular_extra_y_defecto_intervalo) -/

/-- Result of `calcular_extra_y_defecto_intervalo`: the interval's
`trabajo_real`, plus — when a working schedule applies — the theoretical and
effective break the code derives on the way. -/
inductive CalculoIntervalo where
  | vacio
  | sinJornada (trabajoReal : Int)
  | conJornada (descansoTeorico descansoEfectivo trabajoReal : Int)
deriving DecidableEq, Repr

/-- The theoretical break of a per-weekday day-spec (logic.py lines 415-429). -/
def descansoTeoricoDia (dia : ScheduleDay) (fecha : Fecha) : Int :=
  if dia.break_paid then 0
  else if dia.break_type = "fixed" ∧ dia.break_start.isSome ∧ dia.break_end.isSome then
    match dia.break_start, dia.break_end with
    | some bs, some be =>
      let bInicio := combinar fecha bs
      let bFinBase := combinar fecha be
      let bFin := if bFinBase ≤ bInicio then bFinBase + segundosDia else bFinBase
      bFin - bInicio
    | _, _ => 0
  else if dia.break_type = "flexible" ∧ dia.break_minutes.getD 0 > 0 then
    dia.break_minutes.getD 0 * 60
  else 0

/-- The theoretical break of a uniform schedule (logic.py lines 446-460). -/
def descansoTeoricoSchedule (s : Schedule) (fecha : Fecha) : Int :=
  if s.break_paid then 0
  else if s.break_type = "fixed" ∧ s.break_start.isSome ∧ s.break_end.isSome then
    match s.break_start, s.break_end with
    | some bs, some be =>
      let bInicio := combinar fecha bs
      let bFinBase := combinar fecha be
      let bFin := if bFinBase ≤ bInicio then bFinBase + segundosDia else bFinBase
      bFin - bInicio
    | _, _ => 0
  else if s.break_type = "flexible" ∧ s.break_minutes.getD 0 > 0 then
    s.break_minutes.getD 0 * 60
  else 0

/-- Shared tail of `calcular_extra_y_defecto_intervalo` (logic.py lines
462-480): effective-break selection and clamped net work.  `dur_teorica`
is computed by the source at this point but never used afterwards. -/
def ramaConJornada (descansoTeorico : Int) (breakOptional breakPaid : Bool)
    (dReal descansoReal : Int) : CalculoIntervalo :=
  let descansoEfectivo :=
    if breakPaid then 0
    else if breakOptional then descansoReal
    else max descansoReal descansoTeorico
  let trabajoReal0 := dReal - descansoEfectivo
  let trabajoReal := if trabajoReal0 < 0 then 0 else trabajoReal0
  .conJornada descansoTeorico descansoEfectivo trabajoReal

/-- Python `calcular_extra_y_defecto_intervalo`, with the interval's endpoints given
directly and the real break (which the source obtains from the event store via
`calcular_descanso_intervalo_para_usuario`) passed as `descansoReal`. -/
def calcularExtraYDefectoIntervalo (usuario : Usuario)
    (entradaMomento salidaMomento : Option Int) (descansoReal : Int) :
    CalculoIntervalo :=
  match calcularDuracionTrabajadaIntervalo entradaMomento salidaMomento,
        entradaMomento with
  | some dReal, some em =>
    let fecha := fechaDe em
    match obtenerHorarioAplicable usuario with
    | none =>
      let neto := dReal - descansoReal
      .sinJornada (if neto < 0 then 0 else neto)
    | some schedule =>
      if schedule.use_per_day then
        match schedule.days.find? (fun d => d.day_of_week = fecha.weekday) with
        | none =>
          let neto := dReal - descansoReal
          .sinJornada (if neto < 0 then 0 else neto)
        | some dia =>
          ramaConJornada (descansoTeoricoDia dia fecha)
            dia.break_optional dia.break_paid dReal descansoReal
      else
        match schedule.start_time, schedule.end_time with
        | some _, some _ =>
          ramaConJornada (descansoTeoricoSchedule schedule fecha)
            schedule.break_optional schedule.break_paid dReal descansoReal
        | _, _ =>
          let neto := dReal - descansoReal
          .sinJornada (if neto < 0 then 0 else neto)
  | _, _ => .vacio

/-! ## logic.py : period aggregation (obtener_trabajo_y_esperado_por_periodo) -/

/-- Grouping key: the Python code keys its `defaultdict` by the date itself,
by `(isoyear, isoweek)`, or by `(year, month)` depending on `modo`. -/
inductive Clave where
  | porFecha (f : Fecha)
  | porSemana (y w : Int)
  | porMes (y m : Int)
deriving DecidableEq, Repr

/-- The `clave` computed for one date (logic.py lines 494-499); any `modo` other
than "semanal"/"mensual" falls into the date branch. -/
def claveDe (modo : String) (fecha : Fecha) : Clave :=
  if modo = "semanal" then .porSemana fecha.isoYear fecha.isoWeek
  else if modo = "mensual" then .porMes fecha.year fecha.month
  else .porFecha fecha

/-- Expected duration for one date (logic.py line 491-492): theoretical
daily duration of the first assigned schedule, or zero without one. -/
def esperadoFecha (usuario : Usuario) (fecha : Fecha) : Int :=
  match obtenerHorarioAplicable usuario with
  | some schedule => calcularJornadaTeorica schedule fecha
  | none => 0

/-- The `defaultdict` accumulation: add `(trabajado, esperado)` into the group of
key `k`, creating the group at the end on first appearance (dict insertion
order). -/
def agregarGrupo (grupos : List (Clave × Int × Int)) (k : Clave) (w e : Int) :
    List (Clave × Int × Int) :=
  match grupos with
  | [] => [(k, w, e)]
  | (k', w', e') :: resto =>
    if k = k' then (k', w' + w, e' + e) :: resto
    else (k', w', e') :: agregarGrupo resto k w e

/-- The `grupos` dict of `obtener_trabajo_y_esperado_por_periodo` after the
accumulation loop, as an insertion-ordered association list. -/
def gruposPeriodo (usuario : Usuario) (trabajosPorFecha : List (Fecha × Int))
    (modo : String) : List (Clave × Int × Int) :=
  trabajosPorFecha.foldl
    (fun gs p => agregarGrupo gs (claveDe modo p.1) p.2 (esperadoFecha usuario p.1))
    []

/-- Python `obtener_trabajo_y_esperado_por_periodo`: returns
`(total_trabajado, total_esperado, extra, defecto)`.  `extra`/`defecto`
accumulate the positive/negative part of each group's
`trabajado - esperado`. -/
def obtenerTrabajoYEsperadoPorPeriodo (usuario : Usuario)
    (trabajosPorFecha : List (Fecha × Int)) (modo : String) :
    Int × Int × Int × Int :=
  let grupos := gruposPeriodo usuario trabajosPorFecha modo
  let totalTrabajado := (grupos.map (fun g => g.2.1)).sum
  let totalEsperado := (grupos.map (fun g => g.2.2)).sum
  let extra := (grupos.map (fun g =>
    let diff := g.2.1 - g.2.2
    if 0 < diff then diff else 0)).sum
  let defecto := (grupos.map (fun g =>
    let diff := g.2.1 - g.2.2
    if diff < 0 then -diff else 0)).sum
  (totalTrabajado, totalEsperado, extra, defecto)

/-! ## services_fichaje.py : sequence gate -/

/-- The slice of a `Registro` row the gates read. -/
structure Registro where
  id : Int
  usuario_id : Option Int
  accion : String
  momento : Option Int
  latitude : Option Int
  longitude : Option Int
deriving DecidableEq, Repr

/-- Python `validar_secuencia_fichaje(accion, ultimo_registro)`:
`(es_valido, mensaje_error)`. -/
def validarSecuenciaFichaje (accion : String) (ultimoRegistro : Option Registro) :
    Bool × String :=
  if accion ≠ "entrada" ∧ accion ≠ "salida" then
    (false, "Acción no válida.")
  else
    match ultimoRegistro with
    | none =>
      if accion = "salida" then
        (false, "Tu primer fichaje debe ser una ENTRADA, no una salida.")
      else (true, "")
    | some ultimo =>
      if ultimo.accion = accion then
        if accion = "entrada" then
          (false, "Ya tienes una ENTRADA sin una SALIDA posterior.")
        else
          (false, "Ya has fichado SALIDA. Debes fichar ENTRADA antes de otra SALIDA.")
      else (true, "")

/-- The route's `ultimo_registro` query (fichajes.py lines 250-254): the
newest event of any action type; for a history listed in chronological
order this is the last element. -/
def ultimoRegistro (historial : List Registro) : Option Registro :=
  historial.getLast?

/-- The claim's notion of "last relevant work event": the newest
entrada/salida event, ignoring break events (spec §4.3 wording, used only to
state claim C4 against the code). -/
def ultimoRegistroLaboral (historial : List Registro) : Option Registro :=
  (historial.filter (fun r => r.accion = "entrada" ∨ r.accion = "salida")).getLast?

/-! ## services_fichaje.py : legacy daily variance (calcular_extra_y_defecto) -/

/-- The legacy schedule shape read by `calcular_duracion_jornada`
(work_start/work_end and fixed/flexible break fields). -/
structure HorarioLegado where
  work_start : Int
  work_end : Int
  break_type : String
  fixed_break_start : Option Int
  fixed_break_end : Option Int
  flexible_break_minutes : Option Int
deriving DecidableEq, Repr

/-- Python `calcular_duracion_jornada`: net daily duration of a legacy schedule.
`if schedule.flexible_break_minutes` is false for `None` and `0`. -/
def calcularDuracionJornada (schedule : HorarioLegado) (fecha : Fecha) : Int :=
  let ws := combinar fecha schedule.work_start
  let weBase := combinar fecha schedule.work_end
  let we := if weBase ≤ ws then weBase + segundosDia else weBase
  let duracion := we - ws
  let duracion :=
    if schedule.break_type = "fixed" ∧ schedule.fixed_break_start.isSome
        ∧ schedule.fixed_break_end.isSome then
      match schedule.fixed_break_start, schedule.fixed_break_end with
      | some bs, some be =>
        let bsDt := combinar fecha bs
        let beBase := combinar fecha be
        let beDt := if beBase ≤ bsDt then beBase + segundosDia else beBase
        duracion - (beDt - bsDt)
      | _, _ => duracion
    else if schedule.break_type = "flexible" ∧
        (match schedule.flexible_break_minutes with
         | some m => m ≠ 0
         | none => false) = true then
      duracion - schedule.flexible_break_minutes.getD 0 * 60
    else duracion
  if duracion < 0 then 0 else duracion

/-- Python `calcular_extra_y_defecto(trabajado, schedule, fecha)`, returning `(extra, defecto)`. -/
def calcularExtraYDefecto (trabajado : Int) (schedule : HorarioLegado)
    (fecha : Fecha) : Int × Int :=
  let jornada := calcularDuracionJornada schedule fecha
  if jornada < trabajado then (trabajado - jornada, 0)
  else if trabajado < jornada then (0, jornada - trabajado)
  else (0, 0)

/-- The claim's day-level invariant "exactly one of overtime and deficit is
nonzero" (spec §3 wording, used only to state claim C7 against the code). -/
def exactamenteUnoNoNulo (extra defecto : Int) : Prop :=
  (extra ≠ 0 ∧ defecto = 0) ∨ (extra = 0 ∧ defecto ≠ 0)

/-! ## geo_utils.py / logic.py / fichajes.py : geofence

The haversine great-circle distance is a floating-point trigonometric
computation; it is abstracted here as an integer-valued distance oracle
`hav lat1 lon1 lat2 lon2`.  Everything from the distance comparison on is
embedded exactly. -/

/-- Python `str.lower()` on the ASCII location names, character by character
(Lean's `String.toLower` is not kernel-reducible). -/
def lowerCadena (s : String) : String :=
  ⟨s.data.map Char.toLower⟩

/-- Python `is_within_radius`: distance at most the given radius. -/
def isWithinRadius (hav : Int → Int → Int → Int → Int)
    (latUser lonUser latRef lonRef radio : Int) : Bool :=
  hav latUser lonUser latRef lonRef ≤ radio

/-- The punch-authorization geofence loop of `fichar` (fichajes.py lines
404-419, reached when the user is not flexible and coordinates parsed):
first location whose *bare* radius contains the coordinate authorizes;
locations named "Flexible" (case-insensitively) are skipped. -/
def autorizacionGeofence (hav : Int → Int → Int → Int → Int) (latUser lonUser : Int)
    (ubicacionesUsuario : List Ubicacion) : Bool :=
  ubicacionesUsuario.any (fun loc =>
    if lowerCadena loc.name = "flexible" then false
    else isWithinRadius hav latUser lonUser loc.latitude loc.longitude loc.radius_meters)

/-- Python `determinar_ubicacion_por_coordenadas`: first location whose radius plus
the extra margin (default 10) contains the coordinate; used to label punches.
(`loc.radius_meters or 0.0` is the identity on this non-nullable float
column, since `0.0 or 0.0 == 0.0`.) -/
def determinarUbicacionPorCoordenadas (hav : Int → Int → Int → Int → Int)
    (lat lon : Option Int) (ubicaciones : List Ubicacion) (margenExtra : Int) :
    Option Ubicacion :=
  match lat, lon with
  | some latV, some lonV =>
    ubicaciones.find? (fun loc =>
      let radioEfectivo := loc.radius_meters + margenExtra
      if radioEfectivo ≤ 0 then false
      else isWithinRadius hav latV lonV loc.latitude loc.longitude radioEfectivo)
  | _, _ => none

/-! ## fichajes.py : schedule enforcement gate (lines 334-385) -/

/-- The `UserScheduleSettings` slice read by the gate. -/
structure AjustesHorario where
  enforce_schedule : Bool
  margin_minutes : Option Int
deriving DecidableEq, Repr

/-- Outcome of the enforcement block: pass through, rejected for having no
schedule, or rejected outside the window (the error message reports the
margin). -/
inductive ResultadoGateHorario where
  | autorizado
  | sinHorarioAsignado
  | fueraDeHorario (margen : Int)
deriving DecidableEq, Repr

/-- The raw `[inicio_dt, fin_dt]` window one schedule contributes for today:
resolve today's weekday (per-day mode) or the uniform times; skip when either
time is absent; anchor both ends on today's date and push the end one day
forward when it does not come after the start. -/
def ventanaHorario (sched : Schedule) (hoy : Fecha) : Option (Int × Int) :=
  let tiempos : Option (Int × Int) :=
    if sched.use_per_day then
      match sched.days.find? (fun d => d.day_of_week = hoy.weekday) with
      | none => none
      | some dia => some (dia.start_time, dia.end_time)
    else
      match sched.start_time, sched.end_time with
      | some a, some b => some (a, b)
      | _, _ => none
  match tiempos with
  | none => none
  | some (inicioT, finT) =>
    let inicioDt := combinar hoy inicioT
    let finBase := combinar hoy finT
    let finDt := if finBase ≤ inicioDt then finBase + segundosDia else finBase
    some (inicioDt, finDt)

/-- The schedule-enforcement block of `fichar`: `hoy` is the local date of
`ahora` and `ahoraT` its local time of day in seconds.  No settings row or
`enforce_schedule` unset passes through. -/
def gateHorario (settings : Option AjustesHorario) (schedules : List Schedule)
    (hoy : Fecha) (ahoraT : Int) : ResultadoGateHorario :=
  match settings with
  | none => .autorizado
  | some st =>
    if !st.enforce_schedule then .autorizado
    else if schedules.isEmpty then .sinHorarioAsignado
    else
      let margin := st.margin_minutes.getD 0
      let ahoraDt := combinar hoy ahoraT
      let autorizadoPorHorario := schedules.any (fun sched =>
        match ventanaHorario sched hoy with
        | none => false
        | some (inicioDt, finDt) =>
          decide (inicioDt - margin * 60 ≤ ahoraDt ∧ ahoraDt ≤ finDt + margin * 60))
      if autorizadoPorHorario then .autorizado else .fueraDeHorario margin

/-! ## reporting.py : expected-duration accumulation of _build_user_sections -/

/-- The interval attributes `_build_user_sections` reads for the
expected-duration dict. -/
structure IntervaloReporte where
  usuario_id : Option Int
  entrada_momento : Option Int
  salida_momento : Option Int
deriving DecidableEq, Repr

/-- Python `fecha_base`: date of the entrada, else of the salida, else none. -/
def fechaBase (entrada salida : Option Int) : Option Fecha :=
  match entrada with
  | some em => some (fechaDe em)
  | none =>
    match salida with
    | some sm => some (fechaDe sm)
    | none => none

/-- The value of `esperado_por_usuario_fecha[uid][fecha]` after the first
loop of `_build_user_sections` (reporting.py lines 26-57): for **each**
interval of that user anchored on `fecha`, the theoretical daily duration is
added once more. -/
def esperadoPorUsuarioFecha (usuario : Usuario)
    (intervalos : List IntervaloReporte) (fecha : Fecha) : Int :=
  intervalos.foldl (fun acc it =>
    if it.usuario_id = some usuario.id then
      match fechaBase it.entrada_momento it.salida_momento with
      | some fb => if fb = fecha then acc + esperadoFecha usuario fb else acc
      | none => acc
    else acc) 0

/-! ## logic.py : interval builder (construir_intervalo / agrupar_registros_en_intervalos) -/

/-- A punch label: `info_ubicacion` yields "Sin datos", a location name, or
the raw coordinates. -/
inductive Etiqueta where
  | sinDatos
  | deUbicacion (nombre : String)
  | deCoordenadas (lat lon : Int)
deriving DecidableEq, Repr

/-- Combined interval label (`ubicacion_label`): one label, or the
"entrada - salida" pair when the two differ. -/
inductive EtiquetaIntervalo where
  | una (e : Etiqueta)
  | dos (entrada salida : Etiqueta)
deriving DecidableEq, Repr

/-- Python `info_ubicacion` inside `construir_intervalo`: none for an absent
registro, "Sin datos" without coordinates, else the first matching defined
location (default 10-unit margin) or the raw coordinates. -/
def infoUbicacion (hav : Int → Int → Int → Int → Int) (ubicacionesDefinidas : List Ubicacion)
    (reg : Option Registro) : Option Etiqueta :=
  match reg with
  | none => none
  | some r =>
    match r.latitude, r.longitude with
    | some lat, some lon =>
      match determinarUbicacionPorCoordenadas hav (some lat) (some lon)
          ubicacionesDefinidas 10 with
      | some loc => some (.deUbicacion loc.name)
      | none => some (.deCoordenadas lat lon)
    | _, _ => some .sinDatos

/-- The `label_e`/`label_s` combination of `construir_intervalo` (both present and
equal → one; both present and distinct → pair; else the one present, else
"Sin datos").  A present label is always truthy. -/
def etiquetaCombinada (e s : Option Etiqueta) : EtiquetaIntervalo :=
  match e, s with
  | some a, some b => if a = b then .una a else .dos a b
  | some a, none => .una a
  | none, some b => .una b
  | none, none => .una .sinDatos

/-- The `SimpleNamespace` built by `construir_intervalo`.  Equality is
attribute-wise, exactly as `SimpleNamespace.__eq__`. -/
structure Intervalo where
  usuario_id : Option Int
  entrada : Option Registro
  salida : Option Registro
  entrada_momento : Option Int
  salida_momento : Option Int
  label_entrada : Option Etiqueta
  label_salida : Option Etiqueta
  ubicacion_label : EtiquetaIntervalo
  row_id : Option Int
deriving DecidableEq, Repr

/-- Python `construir_intervalo(entrada, salida, ubicaciones_definidas)`. -/
def construirIntervalo (hav : Int → Int → Int → Int → Int)
    (ubicacionesDefinidas : List Ubicacion)
    (entrada salida : Option Registro) : Intervalo :=
  let usuarioId :=
    match entrada with
    | some e => e.usuario_id
    | none =>
      match salida with
      | some s => s.usuario_id
      | none => none
  let labelE := infoUbicacion hav ubicacionesDefinidas entrada
  let labelS := infoUbicacion hav ubicacionesDefinidas salida
  { usuario_id := usuarioId
    entrada := entrada
    salida := salida
    entrada_momento := entrada.bind (fun e => e.momento)
    salida_momento := salida.bind (fun s => s.momento)
    label_entrada := labelE
    label_salida := labelS
    ubicacion_label := etiquetaCombinada labelE labelS
    row_id :=
      match entrada with
      | some e => some e.id
      | none =>
        match salida with
        | some s => some s.id
        | none => none }

/-- The `defaultdict(list)` accumulation: append `x` to the group of key `k`,
creating the group at the end on first appearance. -/
def anexarGrupoLista {α β : Type} [DecidableEq α] :
    List (α × List β) → α → β → List (α × List β)
  | [], k, x => [(k, [x])]
  | (k', xs) :: resto, k, x =>
    if k = k' then (k', xs ++ [x]) :: resto
    else (k', xs) :: anexarGrupoLista resto k x

/-- The per-user pairing pass of `agrupar_registros_en_intervalos`: walk the
chronologically sorted events carrying the pending entrada; an entrada on top
of a pending one flushes the pending one as an orphan; a salida pairs or is
emitted as an orphan; other actions are ignored; a trailing pending entrada
ends as an orphan. -/
def emparejar (hav : Int → Int → Int → Int → Int) (ubicacionesDefinidas : List Ubicacion) :
    List Registro → Option Registro → List Intervalo
  | [], none => []
  | [], some e => [construirIntervalo hav ubicacionesDefinidas (some e) none]
  | r :: resto, pendiente =>
    if r.accion = "entrada" then
      match pendiente with
      | none => emparejar hav ubicacionesDefinidas resto (some r)
      | some e =>
        construirIntervalo hav ubicacionesDefinidas (some e) none ::
          emparejar hav ubicacionesDefinidas resto (some r)
    else if r.accion = "salida" then
      match pendiente with
      | some e =>
        construirIntervalo hav ubicacionesDefinidas (some e) (some r) ::
          emparejar hav ubicacionesDefinidas resto none
      | none =>
        construirIntervalo hav ubicacionesDefinidas none (some r) ::
          emparejar hav ubicacionesDefinidas resto none
    else emparejar hav ubicacionesDefinidas resto pendiente

/-- The `(uid, dia)` grouping key of the deduplication pass. -/
def diaDeIntervalo (it : Intervalo) : Option Fecha :=
  match it.entrada_momento with
  | some em => some (fechaDe em)
  | none =>
    match it.salida_momento with
    | some sm => some (fechaDe sm)
    | none => none

/-- Should an orphan be discarded: its single timestamp already appears on
the same side of a complete interval of its group. -/
def descartarHuerfano (entradasCompletas salidasCompletas : List Int)
    (it : Intervalo) : Bool :=
  (match it.entrada_momento, it.salida_momento with
   | some em, none => entradasCompletas.contains em
   | _, _ => false) ||
  (match it.entrada_momento, it.salida_momento with
   | none, some sm => salidasCompletas.contains sm
   | _, _ => false)

/-- Deduplication of one `(uid, dia)` group (logic.py lines 676-715): with no
complete interval keep everything; otherwise keep completes and only the
orphans whose timestamp is not reused by a complete interval. -/
def limpiarGrupo (ints : List Intervalo) : List Intervalo :=
  let completos := ints.filter (fun it =>
    it.entrada_momento.isSome ∧ it.salida_momento.isSome)
  if completos.isEmpty then ints
  else
    let entradasCompletas := completos.filterMap (fun it => it.entrada_momento)
    let salidasCompletas := completos.filterMap (fun it => it.salida_momento)
    ints.filter (fun it =>
      completos.contains it ||
        !descartarHuerfano entradasCompletas salidasCompletas it)

/-- Sort key of the final descending sort: entrada, else salida, else
`datetime.min` (0001-01-01 as seconds since the epoch). -/
def claveOrdenIntervalo (it : Intervalo) : Int :=
  match it.entrada_momento with
  | some em => em
  | none =>
    match it.salida_momento with
    | some sm => sm
    | none => -62135596800

/-- Python `agrupar_registros_en_intervalos(registros)`.  The defined locations are
`Location.query.filter(Location.name != "Flexible")`, passed here as the full
location table.  Events without user or timestamp are dropped; per user the
events are sorted chronologically (their `momento` is present, so the
`getD 0` key reads the actual timestamp) and paired; the result is
deduplicated per `(uid, dia)` group and sorted by anchor timestamp
descending (Python's stable `sort(..., reverse=True)`). -/
def agruparRegistrosEnIntervalos (hav : Int → Int → Int → Int → Int)
    (todasUbicaciones : List Ubicacion) (registros : List Registro) :
    List Intervalo :=
  let ubicacionesDefinidas := todasUbicaciones.filter (fun l => l.name ≠ "Flexible")
  let regsPorUsuario := registros.foldl (fun acc r =>
    match r.usuario_id, r.momento with
    | some uid, some _ => anexarGrupoLista acc uid r
    | _, _ => acc) []
  let intervalos := regsPorUsuario.foldl (fun acc p =>
    let regsOrdenados := p.2.mergeSort
      (fun a b => decide (a.momento.getD 0 ≤ b.momento.getD 0))
    acc ++ emparejar hav ubicacionesDefinidas regsOrdenados none) []
  let grupos := intervalos.foldl (fun acc it =>
    anexarGrupoLista acc (it.usuario_id, diaDeIntervalo it) it) []
  let intervalosLimpios := grupos.foldl (fun acc p => acc ++ limpiarGrupo p.2) []
  intervalosLimpios.mergeSort
    (fun a b => decide (claveOrdenIntervalo b ≤ claveOrdenIntervalo a))

/-! ## Concrete fixtures used by counterexamples and witnesses -/

/-- A uniform 09:00-17:00 schedule with no break (8h theoretical day). -/
def horarioSimple8h : Schedule :=
  { start_time := some 32400
    end_time := some 61200
    break_type := "none"
    break_start := none
    break_end := none
    break_minutes := none
    use_per_day := false
    days := []
    break_optional := false
    break_paid := false }

/-- A user holding `horarioSimple8h` only. -/
def usuarioSimple : Usuario := ⟨1, [horarioSimple8h]⟩

/-- Monday 2023-01-02 and Tuesday 2023-01-03: same ISO week, same month. -/
def lunesEnero : Fecha := ⟨2023, 1, 2⟩

def martesEnero : Fecha := ⟨2023, 1, 3⟩

/-- Worked 10h on Monday (+2h) and 6h on Tuesday (−2h). -/
def trabajosOpuestos : List (Fecha × Int) := [(lunesEnero, 36000), (martesEnero, 21600)]

/-- Seconds since epoch of 2023-01-02 00:00. -/
def baseLunes : Int := 19359 * 86400

/-- Two complete same-day intervals of `usuarioSimple` on 2023-01-02:
08:00-12:00 and 13:00-17:00. -/
def intervalosDosMismoDia : List IntervaloReporte :=
  [ { usuario_id := some 1
      entrada_momento := some (baseLunes + 28800)
      salida_momento := some (baseLunes + 43200) },
    { usuario_id := some 1
      entrada_momento := some (baseLunes + 46800)
      salida_momento := some (baseLunes + 61200) } ]

/-- Uniform 09:00-17:00 schedule with a fixed unpaid non-optional break
13:00-13:30 (30 minutes). -/
def horarioConDescansoFijo : Schedule :=
  { start_time := some 32400
    end_time := some 61200
    break_type := "fixed"
    break_start := some 46800
    break_end := some 48600
    break_minutes := none
    use_per_day := false
    days := []
    break_optional := false
    break_paid := false }

/-- A user holding `horarioConDescansoFijo` only. -/
def usuarioDescansoFijo : Usuario := ⟨2, [horarioConDescansoFijo]⟩

/-- Uniform fixed-break schedule whose fixed break end is missing. -/
def horarioDescansoIncompleto : Schedule :=
  { start_time := some 32400
    end_time := some 61200
    break_type := "fixed"
    break_start := some 46800
    break_end := none
    break_minutes := none
    use_per_day := false
    days := []
    break_optional := false
    break_paid := false }

/-- A user holding `horarioDescansoIncompleto` only. -/
def usuarioDescansoIncompleto : Usuario := ⟨4, [horarioDescansoIncompleto]⟩

/-- Per-weekday day-spec (Monday) with a missing fixed break start. -/
def diaDescansoIncompleto : ScheduleDay :=
  { day_of_week := 0
    start_time := 32400
    end_time := 61200
    break_type := "fixed"
    break_start := none
    break_end := some 48600
    break_minutes := none
    break_optional := false
    break_paid := false }

/-- Per-weekday schedule holding only `diaDescansoIncompleto`. -/
def horarioPorDiasIncompleto : Schedule :=
  { start_time := none
    end_time := none
    break_type := "none"
    break_start := none
    break_end := none
    break_minutes := none
    use_per_day := true
    days := [diaDescansoIncompleto]
    break_optional := false
    break_paid := false }

/-- A user holding `horarioPorDiasIncompleto` only. -/
def usuarioPorDiasIncompleto : Usuario := ⟨5, [horarioPorDiasIncompleto]⟩

/-- History: an entrada followed only by a break start (no salida since). -/
def historialEntradaDescanso : List Registro :=
  [ { id := 1, usuario_id := some 1, accion := "entrada",
      momento := some (baseLunes + 28800), latitude := none, longitude := none },
    { id := 2, usuario_id := some 1, accion := "descanso_inicio",
      momento := some (baseLunes + 43200), latitude := none, longitude := none } ]

/-- A location of radius 50 at the origin. -/
def ubicacionOficina : Ubicacion := ⟨"Oficina", 0, 0, 50⟩

/-- Distance oracle that reports 55 units everywhere. -/
def hav55 : Int → Int → Int → Int → Int := fun _ _ _ _ => 55

/-- Distance oracle that reports 65 units everywhere. -/
def hav65 : Int → Int → Int → Int → Int := fun _ _ _ _ => 65

/-- Registros for the builder: a complete pair plus a duplicated orphan
entrada on the same day. -/
def registrosEjemplo : List Registro :=
  [ { id := 1, usuario_id := some 1, accion := "entrada",
      momento := some (baseLunes + 28800), latitude := none, longitude := none },
    { id := 2, usuario_id := some 1, accion := "entrada",
      momento := some (baseLunes + 28800), latitude := none, longitude := none },
    { id := 3, usuario_id := some 1, accion := "salida",
      momento := some (baseLunes + 61200), latitude := none, longitude := none } ]

/-- Legacy schedule 09:00-17:00 with no break (8h). -/
def horarioLegado8h : HorarioLegado :=
  { work_start := 32400
    work_end := 61200
    break_type := "none"
    fixed_break_start := none
    fixed_break_end := none
    flexible_break_minutes := none }

/-- Uniform overnight schedule 22:00-06:00, no break. -/
def horarioNocturno : Schedule :=
  { start_time := some 79200
    end_time := some 21600
    break_type := "none"
    break_start := none
    break_end := none
    break_minutes := none
    use_per_day := false
    days := []
    break_optional := false
    break_paid := false }

/-- Enforcement enabled with margin 0. -/
def ajustesEstrictos : AjustesHorario := ⟨true, some 0⟩

/-- Seconds since the epoch of 2023-01-02 23:50 and 2023-01-03 00:10. -/
def entradaNoche : Int := baseLunes + 85800

def salidaMadrugada : Int := baseLunes + 86400 + 600

/-! ## Shared lemmas -/

/-- On the positive half, the accumulation branch is the positive part. -/
theorem ifPos_eq_max (d : Int) : (if 0 < d then d else 0) = max d 0 := by
  rw [max_def]
  split <;> split <;> omega

/-- On the negative half, the accumulation branch is the negated negative part. -/
theorem ifNeg_eq_max (d : Int) : (if d < 0 then -d else 0) = max (-d) 0 := by
  rw [max_def]
  split <;> split <;> omega

/-- Adding to a fresh key appends the group at the end. -/
theorem agregarGrupo_nuevo (gs : List (Clave × Int × Int)) (k : Clave) (w e : Int)
    (h : k ∉ gs.map Prod.fst) :
    agregarGrupo gs k w e = gs ++ [(k, w, e)] := by
  induction gs with
  | nil => rfl
  | cons g resto ih =>
    obtain ⟨k', w', e'⟩ := g
    simp only [List.map_cons, List.mem_cons] at h
    push_neg at h
    obtain ⟨h1, h2⟩ := h
    simp only [agregarGrupo, if_neg h1, List.cons_append, List.cons.injEq, true_and]
    exact ih h2

/-- When all the accumulated keys are pairwise distinct and fresh with
respect to the accumulator, the grouping fold is just a map. -/
theorem gruposPeriodo_aux (usuario : Usuario) (modo : String) :
    ∀ (trabajos : List (Fecha × Int)) (gs : List (Clave × Int × Int)),
      (trabajos.map (fun p => claveDe modo p.1)).Nodup →
      (∀ k ∈ gs.map Prod.fst, k ∉ trabajos.map (fun p => claveDe modo p.1)) →
      trabajos.foldl
        (fun gs p => agregarGrupo gs (claveDe modo p.1) p.2 (esperadoFecha usuario p.1)) gs
        = gs ++ trabajos.map (fun p => (claveDe modo p.1, p.2, esperadoFecha usuario p.1)) := by
  intro trabajos
  induction trabajos with
  | nil => simp
  | cons p resto ih =>
    intro gs hnd hdisj
    simp only [List.map_cons, List.nodup_cons] at hnd
    obtain ⟨hp, hnd'⟩ := hnd
    simp only [List.foldl_cons]
    rw [agregarGrupo_nuevo gs _ _ _ ?fresh]
    case fresh =>
      intro hmem
      exact hdisj _ hmem (by simp)
    rw [ih (gs ++ [(claveDe modo p.1, p.2, esperadoFecha usuario p.1)]) hnd' ?_]
    · simp
    · intro k hk
      simp only [List.map_append, List.mem_append, List.map_cons, List.map_nil,
        List.mem_cons, List.not_mem_nil, or_false] at hk
      rcases hk with hk | hk
      · have := hdisj k hk
        simp only [List.map_cons, List.mem_cons] at this
        push_neg at this
        exact this.2
      · rw [hk]
        exact hp

/-- With pairwise distinct dates, day-mode groups are exactly one group per date. -/
theorem gruposPeriodo_dia (usuario : Usuario) (trabajos : List (Fecha × Int))
    (h : (trabajos.map Prod.fst).Nodup) :
    gruposPeriodo usuario trabajos "dia"
      = trabajos.map (fun p => (claveDe "dia" p.1, p.2, esperadoFecha usuario p.1)) := by
  have hc : (fun p : Fecha × Int => claveDe "dia" p.1)
      = fun p : Fecha × Int => Clave.porFecha p.1 := rfl
  have hkeys : (trabajos.map (fun p => claveDe "dia" p.1)).Nodup := by
    rw [hc]
    have h2 : trabajos.map (fun p : Fecha × Int => Clave.porFecha p.1)
        = (trabajos.map Prod.fst).map Clave.porFecha := by
      simp [List.map_map, Function.comp]
    rw [h2]
    exact h.map (fun a b hab => by simpa using hab)
  have := gruposPeriodo_aux usuario "dia" trabajos [] hkeys (by simp)
  simpa [gruposPeriodo] using this

/-- C1 — corrected.  At day granularity (`modo = "dia"`, the default branch),
the aggregation's overtime is the sum over individual dates of
`max(worked − expected, 0)` and its deficit the sum of
`max(expected − worked, 0)`; at week/month granularity the code instead nets
worked against expected inside each period group (see the counterexample). -/
theorem C1_extra_defecto_por_dia (usuario : Usuario) (trabajos : List (Fecha × Int))
    (h : (trabajos.map Prod.fst).Nodup) :
    (obtenerTrabajoYEsperadoPorPeriodo usuario trabajos "dia").2.2.1
      = (trabajos.map (fun p => max (p.2 - esperadoFecha usuario p.1) 0)).sum ∧
    (obtenerTrabajoYEsperadoPorPeriodo usuario trabajos "dia").2.2.2
      = (trabajos.map (fun p => max (esperadoFecha usuario p.1 - p.2) 0)).sum := by
  have hg := gruposPeriodo_dia usuario trabajos h
  constructor
  · simp only [obtenerTrabajoYEsperadoPorPeriodo, hg, List.map_map]
    congr 1
    apply List.map_congr_left
    intro p _
    simpa using ifPos_eq_max (p.2 - esperadoFecha usuario p.1)
  · simp only [obtenerTrabajoYEsperadoPorPeriodo, hg, List.map_map]
    congr 1
    apply List.map_congr_left
    intro p _
    have := ifNeg_eq_max (p.2 - esperadoFecha usuario p.1)
    simpa [neg_sub] using this

/-- Witness for C1: one 10h day against an 8h schedule gives 2h overtime. -/
theorem C1_extra_defecto_por_dia_witness :
    (obtenerTrabajoYEsperadoPorPeriodo usuarioSimple [(lunesEnero, 36000)] "dia").2.2.1
      = ([(lunesEnero, (36000 : Int))].map
          (fun p => max (p.2 - esperadoFecha usuarioSimple p.1) 0)).sum ∧
    (obtenerTrabajoYEsperadoPorPeriodo usuarioSimple [(lunesEnero, 36000)] "dia").2.2.2
      = ([(lunesEnero, (36000 : Int))].map
          (fun p => max (esperadoFecha usuarioSimple p.1 - p.2) 0)).sum :=
  C1_extra_defecto_por_dia usuarioSimple [(lunesEnero, 36000)] (by decide)

/-- C1 — counterexample.  Monthly mode over a +2h day and a −2h day of the
same month: the code nets them inside the month group and reports overtime 0
and deficit 0, while the claim's independent daily accumulation gives 2h of
each; the same netting happens in weekly mode. -/
theorem C1_contraejemplo :
    obtenerTrabajoYEsperadoPorPeriodo usuarioSimple trabajosOpuestos "mensual"
      = (57600, 57600, 0, 0) ∧
    (trabajosOpuestos.map (fun p => max (p.2 - esperadoFecha usuarioSimple p.1) 0)).sum
      = 7200 ∧
    (trabajosOpuestos.map (fun p => max (esperadoFecha usuarioSimple p.1 - p.2) 0)).sum
      = 7200 ∧
    (0 : Int) ≠ 7200 := by
  refine ⟨?_, ?_, ?_, by decide⟩ <;> decide

/-- C2 — code bug.  `_build_user_sections` accumulates the theoretical daily
duration once **per interval** (reporting.py line 56), so for a user with an
8h schedule and two complete intervals on 2023-01-02 the day-level expected
total used for the daily extra/defecto attribution is 16h, twice the single
theoretical daily duration the claim (and logic.py's own NOTE) require. -/
theorem C2_esperado_duplicado :
    esperadoPorUsuarioFecha usuarioSimple intervalosDosMismoDia lunesEnero = 57600 ∧
    esperadoFecha usuarioSimple lunesEnero = 28800 ∧
    (57600 : Int) ≠ 28800 := by
  refine ⟨?_, ?_, by decide⟩ <;> decide

/-- C9 — corrected.  The raw interval duration equals clock_out − clock_in,
with 24h added exactly once when that naive subtraction is negative; it is
non-negative whenever the clock_out is at most 24h before the clock_in
(always true for builder-produced intervals, whose clock_out is not earlier
than the clock_in), and the 23:50 → 00:10 example yields 20 minutes.  A
clock_out more than 24h before the clock_in still yields a negative duration
(see the counterexample). -/
theorem C9_duracion_intervalo :
    (∀ e s : Int, e - segundosDia ≤ s →
      ∃ d, calcularDuracionTrabajadaIntervalo (some e) (some s) = some d ∧
        0 ≤ d ∧ (e ≤ s → d = s - e) ∧ (s < e → d = s - e + segundosDia)) ∧
    calcularDuracionTrabajadaIntervalo (some entradaNoche) (some salidaMadrugada)
      = some 1200 := by
  constructor
  · intro e s hes
    refine ⟨if s - e < 0 then s - e + segundosDia else s - e, rfl, ?_, ?_, ?_⟩ <;>
      · simp only [segundosDia] at *
        split <;> omega
  · decide

/-- Witness for C9 at a plain same-day interval 08:00 → 16:30. -/
theorem C9_duracion_intervalo_witness :
    ∃ d, calcularDuracionTrabajadaIntervalo (some 28800) (some 59400) = some d ∧
      0 ≤ d ∧ ((28800 : Int) ≤ 59400 → d = 59400 - 28800) ∧
      ((59400 : Int) < 28800 → d = 59400 - 28800 + segundosDia) :=
  C9_duracion_intervalo.1 28800 59400 (by decide)

/-- C9 — counterexample.  A clock_out 25h before the clock_in: the single
24h correction leaves a negative duration, refuting "the raw duration is
non-negative" as a universal statement. -/
theorem C9_contraejemplo :
    calcularDuracionTrabajadaIntervalo (some 90000) (some 0) = some (-3600) ∧
    (-3600 : Int) < 0 := by
  exact ⟨by decide, by decide⟩

/-- C7 — corrected.  Overtime and deficit follow the max-formulas, and at
most one of them is nonzero; when worked equals expected both are zero, so
"exactly one is nonzero" fails (see the counterexample). -/
theorem C7_extra_defecto_diario (trabajado : Int) (schedule : HorarioLegado)
    (fecha : Fecha) :
    (calcularExtraYDefecto trabajado schedule fecha).1
      = max (trabajado - calcularDuracionJornada schedule fecha) 0 ∧
    (calcularExtraYDefecto trabajado schedule fecha).2
      = max (calcularDuracionJornada schedule fecha - trabajado) 0 ∧
    ¬((calcularExtraYDefecto trabajado schedule fecha).1 ≠ 0 ∧
      (calcularExtraYDefecto trabajado schedule fecha).2 ≠ 0) := by
  simp only [calcularExtraYDefecto]
  split_ifs with h1 h2 <;> dsimp only <;>
    exact ⟨by rw [max_def]; split <;> omega,
      by rw [max_def]; split <;> omega, by omega⟩

/-- C7 — counterexample.  Worked exactly the 8h jornada: the code returns
`(0, 0)`, where neither overtime nor deficit is nonzero. -/
theorem C7_contraejemplo :
    calcularExtraYDefecto 28800 horarioLegado8h lunesEnero = (0, 0) ∧
    ¬ exactamenteUnoNoNulo 0 0 := by
  constructor
  · decide
  · simp [exactamenteUnoNoNulo]

/-- C4 — corrected.  The sequence gate only inspects the literal most recent
event of **any** action type: a clock_in is rejected iff that last event is
itself a clock_in; break events recorded after an open clock_in mask it and
the duplicate clock_in is accepted (see the counterexample). -/
theorem C4_entrada_segun_ultimo (historial : List Registro) :
    (validarSecuenciaFichaje "entrada" (ultimoRegistro historial)).1 = false ↔
    (∃ r, ultimoRegistro historial = some r ∧ r.accion = "entrada") := by
  cases h : ultimoRegistro historial with
  | none => simp [validarSecuenciaFichaje]
  | some r =>
    by_cases ha : r.accion = "entrada" <;>
      simp [validarSecuenciaFichaje, ha]

/-- C4 — counterexample.  History "entrada, descanso_inicio": the last
relevant work event is an unanswered entrada, yet the gate accepts a new
entrada because the literal last event is the break start. -/
theorem C4_contraejemplo :
    (validarSecuenciaFichaje "entrada" (ultimoRegistro historialEntradaDescanso)).1
      = true ∧
    (ultimoRegistroLaboral historialEntradaDescanso).map (fun r => r.accion)
      = some "entrada" := by
  constructor <;> decide

/-- C6 — confirmed.  The interval builder is a pure function of the event
list, the location table and the distance oracle: two runs over the same
input yield identical interval lists (the Python-side hazards — dict
iteration order, the `Location` query — are fixed by the claim's "same
input"). -/
theorem C6_builder_deterministico (hav hav' : Int → Int → Int → Int → Int)
    (ubic ubic' : List Ubicacion) (regs regs' : List Registro)
    (hh : hav = hav') (hu : ubic = ubic') (hr : regs = regs') :
    agruparRegistrosEnIntervalos hav ubic regs
      = agruparRegistrosEnIntervalos hav' ubic' regs' := by
  rw [hh, hu, hr]

/-- Witness for C6 on a three-event history with a duplicated entrada. -/
theorem C6_builder_deterministico_witness :
    agruparRegistrosEnIntervalos hav55 [ubicacionOficina] registrosEjemplo
      = agruparRegistrosEnIntervalos hav55 [ubicacionOficina] registrosEjemplo :=
  C6_builder_deterministico hav55 hav55 [ubicacionOficina] [ubicacionOficina]
    registrosEjemplo registrosEjemplo rfl rfl rfl

/-- Reduction of the per-interval calculation on the uniform branch. -/
theorem calcularExtra_uniforme (usuario : Usuario) (s : Schedule)
    (em sm descansoReal : Int) (a b : Int)
    (hs : obtenerHorarioAplicable usuario = some s)
    (hpd : s.use_per_day = false)
    (ha : s.start_time = some a) (hb : s.end_time = some b) :
    calcularExtraYDefectoIntervalo usuario (some em) (some sm) descansoReal
      = ramaConJornada (descansoTeoricoSchedule s (fechaDe em))
          s.break_optional s.break_paid
          (if sm - em < 0 then sm - em + segundosDia else sm - em)
          descansoReal := by
  simp [calcularExtraYDefectoIntervalo, calcularDuracionTrabajadaIntervalo,
    hs, hpd, ha, hb]

/-- Reduction of the per-interval calculation on the per-weekday branch. -/
theorem calcularExtra_porDia (usuario : Usuario) (s : Schedule)
    (dia : ScheduleDay) (em sm descansoReal : Int)
    (hs : obtenerHorarioAplicable usuario = some s)
    (hpd : s.use_per_day = true)
    (hdia : s.days.find? (fun d => d.day_of_week = (fechaDe em).weekday) = some dia) :
    calcularExtraYDefectoIntervalo usuario (some em) (some sm) descansoReal
      = ramaConJornada (descansoTeoricoDia dia (fechaDe em))
          dia.break_optional dia.break_paid
          (if sm - em < 0 then sm - em + segundosDia else sm - em)
          descansoReal := by
  simp [calcularExtraYDefectoIntervalo, calcularDuracionTrabajadaIntervalo,
    hs, hpd, hdia]

/-- C3 — confirmed.  With an applicable schedule (uniform with both times, or
per-weekday with a day-spec for the date), the effective break is 0 when the
break is paid, the real break when it is optional, and otherwise the maximum
of the real break and the theoretical break configured for that day; in
particular a 20-minute real break against a fixed unpaid non-optional
30-minute break yields a 30-minute effective break. -/
theorem C3_descanso_efectivo :
    (∀ (usuario : Usuario) (s : Schedule) (em sm descansoReal a b : Int),
      obtenerHorarioAplicable usuario = some s →
      s.use_per_day = false →
      s.start_time = some a → s.end_time = some b →
      ∃ trab,
        calcularExtraYDefectoIntervalo usuario (some em) (some sm) descansoReal
          = .conJornada (descansoTeoricoSchedule s (fechaDe em))
              (if s.break_paid then 0
               else if s.break_optional then descansoReal
               else max descansoReal (descansoTeoricoSchedule s (fechaDe em)))
              trab) ∧
    (∀ (usuario : Usuario) (s : Schedule) (dia : ScheduleDay)
        (em sm descansoReal : Int),
      obtenerHorarioAplicable usuario = some s →
      s.use_per_day = true →
      s.days.find? (fun d => d.day_of_week = (fechaDe em).weekday) = some dia →
      ∃ trab,
        calcularExtraYDefectoIntervalo usuario (some em) (some sm) descansoReal
          = .conJornada (descansoTeoricoDia dia (fechaDe em))
              (if dia.break_paid then 0
               else if dia.break_optional then descansoReal
               else max descansoReal (descansoTeoricoDia dia (fechaDe em)))
              trab) ∧
    calcularExtraYDefectoIntervalo usuarioDescansoFijo
        (some (baseLunes + 32400)) (some (baseLunes + 61800)) 1200
      = .conJornada 1800 1800 27600 := by
  refine ⟨?_, ?_, by decide⟩
  · intro usuario s em sm descansoReal a b hs hpd ha hb
    refine ⟨(let dReal := if sm - em < 0 then sm - em + segundosDia else sm - em
             let efe := if s.break_paid then 0
               else if s.break_optional then descansoReal
               else max descansoReal (descansoTeoricoSchedule s (fechaDe em))
             if dReal - efe < 0 then 0 else dReal - efe), ?_⟩
    rw [calcularExtra_uniforme usuario s em sm descansoReal a b hs hpd ha hb]
    simp only [ramaConJornada]
  · intro usuario s dia em sm descansoReal hs hpd hdia
    refine ⟨(let dReal := if sm - em < 0 then sm - em + segundosDia else sm - em
             let efe := if dia.break_paid then 0
               else if dia.break_optional then descansoReal
               else max descansoReal (descansoTeoricoDia dia (fechaDe em))
             if dReal - efe < 0 then 0 else dReal - efe), ?_⟩
    rw [calcularExtra_porDia usuario s dia em sm descansoReal hs hpd hdia]
    simp only [ramaConJornada]

/-- Witness for C3: the fixed-break schedule at the 20-minute real break. -/
theorem C3_descanso_efectivo_witness :
    ∃ trab,
      calcularExtraYDefectoIntervalo usuarioDescansoFijo
          (some (baseLunes + 32400)) (some (baseLunes + 61800)) 1200
        = .conJornada
            (descansoTeoricoSchedule horarioConDescansoFijo
              (fechaDe (baseLunes + 32400)))
            (if horarioConDescansoFijo.break_paid then 0
             else if horarioConDescansoFijo.break_optional then 1200
             else max 1200
               (descansoTeoricoSchedule horarioConDescansoFijo
                 (fechaDe (baseLunes + 32400))))
            trab :=
  C3_descanso_efectivo.1 usuarioDescansoFijo horarioConDescansoFijo
    (baseLunes + 32400) (baseLunes + 61800) 1200 32400 61200 rfl rfl rfl rfl

/-- C5 — corrected.  Punch authorization tests the haversine distance against
the location's bare radius — no tolerance — so distance 55 against radius 50
is rejected (see the counterexample); the 10-unit default tolerance belongs
to `determinar_ubicacion_por_coordenadas`, the labeling lookup, which does
match distance 55 against radius 50; distance 65 is rejected by both. -/
theorem C5_geofence_sin_margen :
    (∀ (hav : Int → Int → Int → Int → Int) (latU lonU : Int) (ubicaciones : List Ubicacion),
      autorizacionGeofence hav latU lonU ubicaciones = true ↔
        ∃ loc ∈ ubicaciones, lowerCadena loc.name ≠ "flexible" ∧
          hav latU lonU loc.latitude loc.longitude ≤ loc.radius_meters) ∧
    determinarUbicacionPorCoordenadas hav55 (some 0) (some 0) [ubicacionOficina] 10
      = some ubicacionOficina ∧
    autorizacionGeofence hav65 0 0 [ubicacionOficina] = false := by
  refine ⟨?_, by decide, by decide⟩
  intro hav latU lonU ubicaciones
  simp only [autorizacionGeofence, List.any_eq_true, isWithinRadius]
  constructor
  · rintro ⟨loc, hmem, hloc⟩
    by_cases hf : lowerCadena loc.name = "flexible"
    · rw [if_pos hf] at hloc
      exact absurd hloc (by simp)
    · rw [if_neg hf] at hloc
      exact ⟨loc, hmem, hf, by simpa using hloc⟩
  · rintro ⟨loc, hmem, hf, hle⟩
    refine ⟨loc, hmem, ?_⟩
    rw [if_neg hf]
    simpa using hle

/-- C5 — counterexample.  One location of radius 50 and a distance oracle
reporting 55: the claim's `radius + 10` test succeeds, yet the punch
authorization loop rejects. -/
theorem C5_contraejemplo :
    autorizacionGeofence hav55 0 0 [ubicacionOficina] = false ∧
    (55 : Int) ≤ ubicacionOficina.radius_meters + 10 := by
  constructor <;> decide

/-- The per-schedule check of the enforcement loop, as an existential. -/
theorem ventanaCheck_eq_true (sched : Schedule) (hoy : Fecha)
    (margin ahoraDt : Int) :
    (match ventanaHorario sched hoy with
     | none => false
     | some (i, f) =>
       decide (i - margin * 60 ≤ ahoraDt ∧ ahoraDt ≤ f + margin * 60)) = true ↔
    ∃ i f, ventanaHorario sched hoy = some (i, f) ∧
      i - margin * 60 ≤ ahoraDt ∧ ahoraDt ≤ f + margin * 60 := by
  cases hv : ventanaHorario sched hoy with
  | none => simp
  | some p =>
    obtain ⟨i, f⟩ := p
    simp only [hv, decide_eq_true_eq, Option.some.injEq, Prod.mk.injEq]
    constructor
    · intro h
      exact ⟨i, f, ⟨rfl, rfl⟩, h⟩
    · rintro ⟨i', f', ⟨hi, hf⟩, h⟩
      rw [hi, hf]
      exact h

/-- C8 — corrected.  With enforcement on and at least one schedule, a punch
is authorized iff some schedule resolved for today's weekday has both times
and its window — anchored on **today's** date, with the end pushed to
tomorrow when it does not come after the start — contains "now" within the
margin; otherwise the rejection carries the margin.  A punch after midnight
in the tail of an overnight shift begun the previous day is therefore
rejected (see the counterexample). -/
theorem C8_ventana_hoy (st : AjustesHorario) (schedules : List Schedule)
    (hoy : Fecha) (ahoraT : Int)
    (henf : st.enforce_schedule = true) (hne : schedules ≠ []) :
    (gateHorario (some st) schedules hoy ahoraT = .autorizado ↔
      ∃ sched ∈ schedules, ∃ i f, ventanaHorario sched hoy = some (i, f) ∧
        i - st.margin_minutes.getD 0 * 60 ≤ combinar hoy ahoraT ∧
        combinar hoy ahoraT ≤ f + st.margin_minutes.getD 0 * 60) ∧
    (gateHorario (some st) schedules hoy ahoraT = .autorizado ∨
      gateHorario (some st) schedules hoy ahoraT
        = .fueraDeHorario (st.margin_minutes.getD 0)) := by
  have hne' : schedules.isEmpty = false := by
    cases schedules with
    | nil => exact absurd rfl hne
    | cons a l => rfl
  simp only [gateHorario, henf, hne', Bool.not_true, Bool.false_eq_true,
    if_false]
  by_cases hok : schedules.any (fun sched =>
      match ventanaHorario sched hoy with
      | none => false
      | some (i, f) =>
        decide (i - st.margin_minutes.getD 0 * 60 ≤ combinar hoy ahoraT ∧
          combinar hoy ahoraT ≤ f + st.margin_minutes.getD 0 * 60)) = true
  · rw [if_pos hok]
    refine ⟨⟨fun _ => ?_, fun _ => rfl⟩, Or.inl rfl⟩
    obtain ⟨sched, hmem, hcheck⟩ := List.any_eq_true.mp hok
    exact ⟨sched, hmem,
      (ventanaCheck_eq_true sched hoy (st.margin_minutes.getD 0)
        (combinar hoy ahoraT)).mp hcheck⟩
  · rw [if_neg hok]
    refine ⟨⟨fun h => absurd h (by simp), fun h => ?_⟩, Or.inr rfl⟩
    exfalso
    apply hok
    obtain ⟨sched, hmem, i, f, hv, h1, h2⟩ := h
    exact List.any_eq_true.mpr ⟨sched, hmem,
      (ventanaCheck_eq_true sched hoy (st.margin_minutes.getD 0)
        (combinar hoy ahoraT)).mpr ⟨i, f, hv, h1, h2⟩⟩

/-- Witness for C8: enforcement on, one 09:00-17:00 schedule, a punch at
10:00 local time. -/
theorem C8_ventana_hoy_witness :
    (gateHorario (some ajustesEstrictos) [horarioSimple8h] lunesEnero 36000
        = .autorizado ↔
      ∃ sched ∈ [horarioSimple8h], ∃ i f,
        ventanaHorario sched lunesEnero = some (i, f) ∧
        i - ajustesEstrictos.margin_minutes.getD 0 * 60 ≤ combinar lunesEnero 36000 ∧
        combinar lunesEnero 36000 ≤ f + ajustesEstrictos.margin_minutes.getD 0 * 60) ∧
    (gateHorario (some ajustesEstrictos) [horarioSimple8h] lunesEnero 36000
        = .autorizado ∨
      gateHorario (some ajustesEstrictos) [horarioSimple8h] lunesEnero 36000
        = .fueraDeHorario (ajustesEstrictos.margin_minutes.getD 0)) :=
  C8_ventana_hoy ajustesEstrictos [horarioSimple8h] lunesEnero 36000 rfl
    (by simp)

/-- C8 — counterexample.  Overnight schedule 22:00-06:00 with margin 0: a
punch at 01:00 local time is after midnight and before the overnight end
plus margin, yet the gate — anchoring the window on today's 22:00 — rejects
it, reporting the margin. -/
theorem C8_contraejemplo :
    gateHorario (some ajustesEstrictos) [horarioNocturno] lunesEnero 3600
      = .fueraDeHorario 0 ∧
    horarioNocturno.start_time = some 79200 ∧
    horarioNocturno.end_time = some 21600 ∧
    (21600 : Int) ≤ 79200 ∧ (0 : Int) ≤ 3600 ∧ (3600 : Int) ≤ 21600 + 0 * 60 := by
  refine ⟨by decide, rfl, rfl, by decide, by decide, by decide⟩

/-- C10 — confirmed.  A fixed-type break with a missing configured start or
end contributes nothing: the theoretical daily duration is the clamped gross
span with no break subtracted, the derived theoretical break is zero, and for
an unpaid non-optional policy the effective break collapses to
`max(real, 0) = real`, in both uniform and per-weekday modes. -/
theorem C10_descanso_fijo_incompleto :
    (∀ (s : Schedule) (dt : Fecha) (a b : Int),
      s.use_per_day = false → s.start_time = some a → s.end_time = some b →
      s.break_type = "fixed" → (s.break_start = none ∨ s.break_end = none) →
      calcularJornadaTeorica s dt
        = (let inicio := combinar dt a
           let finBase := combinar dt b
           let fin := if finBase ≤ inicio then finBase + segundosDia else finBase
           if fin - inicio < 0 then 0 else fin - inicio) ∧
      descansoTeoricoSchedule s dt = 0) ∧
    (∀ (s : Schedule) (dia : ScheduleDay) (dt : Fecha),
      s.use_per_day = true →
      s.days.find? (fun d => d.day_of_week = dt.weekday) = some dia →
      dia.break_type = "fixed" → (dia.break_start = none ∨ dia.break_end = none) →
      calcularJornadaTeorica s dt
        = (let inicio := combinar dt dia.start_time
           let finBase := combinar dt dia.end_time
           let fin := if finBase ≤ inicio then finBase + segundosDia else finBase
           if fin - inicio < 0 then 0 else fin - inicio) ∧
      descansoTeoricoDia dia dt = 0) ∧
    (∀ (usuario : Usuario) (s : Schedule) (em sm descansoReal a b : Int),
      obtenerHorarioAplicable usuario = some s →
      s.use_per_day = false → s.start_time = some a → s.end_time = some b →
      s.break_type = "fixed" → (s.break_start = none ∨ s.break_end = none) →
      s.break_paid = false → s.break_optional = false → 0 ≤ descansoReal →
      ∃ trab,
        calcularExtraYDefectoIntervalo usuario (some em) (some sm) descansoReal
          = .conJornada 0 descansoReal trab) ∧
    (∀ (usuario : Usuario) (s : Schedule) (dia : ScheduleDay)
        (em sm descansoReal : Int),
      obtenerHorarioAplicable usuario = some s →
      s.use_per_day = true →
      s.days.find? (fun d => d.day_of_week = (fechaDe em).weekday) = some dia →
      dia.break_type = "fixed" → (dia.break_start = none ∨ dia.break_end = none) →
      dia.break_paid = false → dia.break_optional = false → 0 ≤ descansoReal →
      ∃ trab,
        calcularExtraYDefectoIntervalo usuario (some em) (some sm) descansoReal
          = .conJornada 0 descansoReal trab) := by
  refine ⟨?_, ?_, ?_, ?_⟩
  · intro s dt a b hpd ha hb hbt hmiss
    refine ⟨?_, ?_⟩
    · rcases hmiss with hm | hm
      · cases hbp : s.break_paid <;>
          simp [calcularJornadaTeorica, hpd, ha, hb, hbt, hm, hbp]
      · cases hbp : s.break_paid <;> cases hbs : s.break_start <;>
          simp [calcularJornadaTeorica, hpd, ha, hb, hbt, hm, hbp, hbs]
    · rcases hmiss with hm | hm <;>
        cases hbp : s.break_paid <;>
          simp [descansoTeoricoSchedule, hm, hbp, hbt]
  · intro s dia dt hpd hdia hbt hmiss
    refine ⟨?_, ?_⟩
    · rcases hmiss with hm | hm
      · cases hbp : dia.break_paid <;>
          simp [calcularJornadaTeorica, hpd, hdia, hbt, hm, hbp]
      · cases hbp : dia.break_paid <;> cases hbs : dia.break_start <;>
          simp [calcularJornadaTeorica, hpd, hdia, hbt, hm, hbp, hbs]
    · rcases hmiss with hm | hm <;>
        cases hbp : dia.break_paid <;>
          simp [descansoTeoricoDia, hm, hbp, hbt]
  · intro usuario s em sm descansoReal a b hs hpd ha hb hbt hmiss hbp hbo hreal
    have hteo : descansoTeoricoSchedule s (fechaDe em) = 0 := by
      rcases hmiss with hm | hm <;> simp [descansoTeoricoSchedule, hm, hbp, hbt]
    refine ⟨(let dReal := if sm - em < 0 then sm - em + segundosDia else sm - em
             if dReal - descansoReal < 0 then 0 else dReal - descansoReal), ?_⟩
    rw [calcularExtra_uniforme usuario s em sm descansoReal a b hs hpd ha hb, hteo]
    simp only [ramaConJornada, hbp, hbo, Bool.false_eq_true, if_false]
    rw [max_eq_left hreal]
  · intro usuario s dia em sm descansoReal hs hpd hdia hbt hmiss hbp hbo hreal
    have hteo : descansoTeoricoDia dia (fechaDe em) = 0 := by
      rcases hmiss with hm | hm <;> simp [descansoTeoricoDia, hm, hbp, hbt]
    refine ⟨(let dReal := if sm - em < 0 then sm - em + segundosDia else sm - em
             if dReal - descansoReal < 0 then 0 else dReal - descansoReal), ?_⟩
    rw [calcularExtra_porDia usuario s dia em sm descansoReal hs hpd hdia, hteo]
    simp only [ramaConJornada, hbp, hbo, Bool.false_eq_true, if_false]
    rw [max_eq_left hreal]

/-- Witness for C10: uniform fixed-break schedule missing its break end, a
15-minute real break on a complete 09:00-17:00 interval. -/
theorem C10_descanso_fijo_incompleto_witness :
    ∃ trab,
      calcularExtraYDefectoIntervalo usuarioDescansoIncompleto
          (some (baseLunes + 32400)) (some (baseLunes + 61200)) 900
        = .conJornada 0 900 trab :=
  C10_descanso_fijo_incompleto.2.2.1 usuarioDescansoIncompleto
    horarioDescansoIncompleto (baseLunes + 32400) (baseLunes + 61200) 900
    32400 61200 rfl rfl rfl rfl rfl (Or.inr rfl) rfl rfl (by decide)

-- sanity checks on the calendar arithmetic against Python's datetime
example : Fecha.aDias ⟨1970, 1, 1⟩ = 0 := by decide
example : fechaDeDias 0 = ⟨1970, 1, 1⟩ := by decide
example : Fecha.aDias ⟨2023, 1, 2⟩ = 19359 := by decide
example : fechaDeDias 19359 = ⟨2023, 1, 2⟩ := by decide
example : Fecha.weekday ⟨2023, 1, 2⟩ = 0 := by decide
example : Fecha.weekday ⟨2023, 1, 1⟩ = 6 := by decide
example : Fecha.isoYear ⟨2023, 1, 1⟩ = 2022 ∧ Fecha.isoWeek ⟨2023, 1, 1⟩ = 52 := by decide
example : Fecha.isoYear ⟨2023, 1, 2⟩ = 2023 ∧ Fecha.isoWeek ⟨2023, 1, 2⟩ = 1 := by decide
example : Fecha.isoYear ⟨2021, 1, 1⟩ = 2020 ∧ Fecha.isoWeek ⟨2021, 1, 1⟩ = 53 := by decide
example : Fecha.isoYear ⟨2024, 12, 30⟩ = 2025 ∧ Fecha.isoWeek ⟨2024, 12, 30⟩ = 1 := by decide
